import Mathlib

/-!
Verification of the NIFTY_v2 strategy engine (backend/core/strategy.py,
backend/core/indicators.py) against its natural-language specification.

Shallow embedding conventions:
* Python floats are modelled as exact rationals (ℚ); decimal literals are exact.
* Transcendental library calls (scipy.stats.norm.cdf/pdf, math.log/sqrt/exp)
  are abstracted into a `MathOracle` record of total functions ℚ → ℚ; theorems
  are universally quantified over the oracle.
* External I/O (Fyers quotes, DB, clock) is abstracted into an `Env` record.
* Python dicts become association lists with Python-dict update semantics.
-/

/-- `round_to d q` models Python's `round(q, d)` (exact away from half-ties;
Python breaks exact half-ties to even, which none of the proved properties
depend on since Mathlib's `round` and round-half-to-even are both monotone
and agree on tie-free values). -/
def round_to (d : Nat) (q : ℚ) : ℚ := ((round (q * 10 ^ d) : ℤ) : ℚ) / 10 ^ d

theorem round_to_mono {d : Nat} {a b : ℚ} (h : a ≤ b) : round_to d a ≤ round_to d b := by
  unfold round_to
  have h10 : (0:ℚ) < 10 ^ d := by positivity
  have hm : round (a * 10 ^ d) ≤ round (b * 10 ^ d) := by
    rw [round_eq, round_eq]
    exact Int.floor_mono (by nlinarith)
  have hc : ((round (a * 10 ^ d) : ℤ) : ℚ) ≤ ((round (b * 10 ^ d) : ℤ) : ℚ) := by exact_mod_cast hm
  exact (div_le_div_iff_of_pos_right h10).mpr hc

/-! ## Association lists with Python-dict semantics

Python `dict`s keyed by trade id are modelled as insertion-ordered
association lists.  `alookup` is `d.get(k)`, `aset` is `d[k] = v`
(update in place if present, append otherwise), `apop` is `d.pop(k, None)`,
`amodify` is in-place mutation of the value object (the dict itself is
untouched, so it is key-preserving), `akeys` is `list(d.keys())`. -/

def alookup {α : Type} (m : List (Nat × α)) (k : Nat) : Option α :=
  (m.find? (fun p => p.1 == k)).map Prod.snd

def amem {α : Type} (m : List (Nat × α)) (k : Nat) : Bool :=
  m.any (fun p => p.1 == k)

def aset {α : Type} (m : List (Nat × α)) (k : Nat) (v : α) : List (Nat × α) :=
  if amem m k then m.map (fun p => if p.1 == k then (k, v) else p) else m ++ [(k, v)]

def apop {α : Type} (m : List (Nat × α)) (k : Nat) : List (Nat × α) :=
  m.filter (fun p => !(p.1 == k))

def amodify {α : Type} (m : List (Nat × α)) (k : Nat) (f : α → α) : List (Nat × α) :=
  m.map (fun p => if p.1 == k then (p.1, f p.2) else p)

def akeys {α : Type} (m : List (Nat × α)) : List Nat :=
  m.map Prod.fst

theorem akeys_amodify {α : Type} (m : List (Nat × α)) (k : Nat) (f : α → α) :
    akeys (amodify m k f) = akeys m := by
  unfold akeys amodify
  rw [List.map_map]
  apply List.map_congr_left
  intro p _
  by_cases hp : p.1 == k <;> simp [Function.comp, hp]

theorem akeys_apop {α : Type} (m : List (Nat × α)) (k : Nat) :
    akeys (apop m k) = (akeys m).filter (fun x => !(x == k)) := by
  unfold akeys apop
  induction m with
  | nil => rfl
  | cons p rest ih =>
      simp only [List.map_cons, List.filter_cons]
      by_cases h : p.1 == k
      · simp [h, ih]
      · simp [h, ih]

theorem akeys_aset_mem {α : Type} (m : List (Nat × α)) (k : Nat) (v : α)
    (h : amem m k = true) : akeys (aset m k v) = akeys m := by
  unfold aset
  rw [if_pos h]
  unfold akeys
  rw [List.map_map]
  apply List.map_congr_left
  intro p _
  by_cases hp : p.1 == k
  · simp only [Function.comp_apply, hp, if_true]
    exact (beq_iff_eq.mp hp).symm
  · simp [Function.comp, hp]

theorem akeys_aset_new {α : Type} (m : List (Nat × α)) (k : Nat) (v : α)
    (h : amem m k = false) : akeys (aset m k v) = akeys m ++ [k] := by
  unfold aset
  rw [if_neg (by simp [h])]
  simp [akeys]

theorem akeys_aset {α : Type} (m : List (Nat × α)) (k : Nat) (v : α) :
    akeys (aset m k v) = if amem m k then akeys m else akeys m ++ [k] := by
  by_cases h : amem m k
  · simp [h, akeys_aset_mem m k v h]
  · simp [eq_false_of_ne_true h, akeys_aset_new m k v (eq_false_of_ne_true h)]

/-! ## Option pricing (backend/core/indicators.py)

`MathOracle` packages the transcendental library functions used by the
source (`scipy.stats.norm.cdf`/`.pdf`, `math.log`, `math.sqrt`, `math.exp`)
as total rational functions; every theorem quantifies over the oracle. -/

structure Greeks where
  delta : ℚ
  gamma : ℚ
  theta : ℚ
  vega : ℚ
  iv : ℚ
deriving Repr, DecidableEq

structure MathOracle where
  cdf : ℚ → ℚ
  pdf : ℚ → ℚ
  log : ℚ → ℚ
  sqrt : ℚ → ℚ
  exp : ℚ → ℚ

/-- `black_scholes_greeks` (indicators.py:101-141).  The second guard models
the source's `try/except` (a `math.log` domain error or a zero divisor
raises, and the handler returns the all-zero Greek set echoing `sigma`). -/
def black_scholes_greeks (m : MathOracle) (S K T r sigma : ℚ) (option_type : String) : Greeks :=
  if T ≤ 0 then { delta := 0, gamma := 0, theta := 0, vega := 0, iv := sigma }
  else if S ≤ 0 ∨ K ≤ 0 ∨ sigma * m.sqrt T = 0 then
    { delta := 0, gamma := 0, theta := 0, vega := 0, iv := sigma }
  else
    let sqrtT := m.sqrt T
    let d1 := (m.log (S / K) + (r + 0.5 * sigma ^ 2) * T) / (sigma * sqrtT)
    let d2 := d1 - sigma * sqrtT
    let delta := if option_type = "CE" then m.cdf d1 else m.cdf d1 - 1
    let gamma := m.pdf d1 / (S * sigma * sqrtT)
    let vega := S * m.pdf d1 * sqrtT * 0.01
    let theta := (-(S * m.pdf d1 * sigma) / (2 * sqrtT)
        - r * K * m.exp (-(r * T)) * (if option_type = "CE" then m.cdf d2 else m.cdf (-d2))) / 365
    { delta := round_to 4 delta, gamma := round_to 6 gamma,
      theta := round_to 4 theta, vega := round_to 4 vega, iv := sigma }

/-- One body of the Newton-Raphson loop of `estimate_iv_from_price`
(indicators.py:158-174): the Black-Scholes price and (unscaled) vega at the
current `sigma`; `none` models the `except` branch (log domain error). -/
def estimate_iv_step (m : MathOracle) (S K T : ℚ) (option_type : String) (r sigma : ℚ) :
    Option (ℚ × ℚ) :=
  if S ≤ 0 ∨ K ≤ 0 ∨ sigma * m.sqrt T = 0 then none
  else
    let sqrtT := m.sqrt T
    let d1 := (m.log (S / K) + (r + 0.5 * sigma ^ 2) * T) / (sigma * sqrtT)
    let d2 := d1 - sigma * sqrtT
    let price := if option_type = "CE" then S * m.cdf d1 - K * m.exp (-(r * T)) * m.cdf d2
                 else K * m.exp (-(r * T)) * m.cdf (-d2) - S * m.cdf (-d1)
    some (price, S * m.pdf d1 * sqrtT)

/-- The `for _ in range(100)` loop of `estimate_iv_from_price`, with the fuel
made explicit.  Mirrors the source order: update `sigma`, clamp to
`[0.01, 5.0]`, then test the price-error early exit. -/
def estimate_iv_loop (m : MathOracle) (market_price S K T : ℚ) (option_type : String)
    (r : ℚ) : Nat → ℚ → ℚ
  | 0, sigma => sigma
  | Nat.succ n, sigma =>
    match estimate_iv_step m S K T option_type r sigma with
    | none => sigma
    | some (price, vega) =>
      if |vega| < 1e-10 then sigma
      else
        let diff := market_price - price
        let sigma' := max 0.01 (min (sigma + diff / vega) 5)
        if |diff| < 0.001 then sigma'
        else estimate_iv_loop m market_price S K T option_type r n sigma'

/-- Number of executed loop bodies of the Newton-Raphson iteration. -/
def estimate_iv_iters (m : MathOracle) (market_price S K T : ℚ) (option_type : String)
    (r : ℚ) : Nat → ℚ → Nat
  | 0, _ => 0
  | Nat.succ n, sigma =>
    match estimate_iv_step m S K T option_type r sigma with
    | none => 1
    | some (price, vega) =>
      if |vega| < 1e-10 then 1
      else
        let diff := market_price - price
        let sigma' := max 0.01 (min (sigma + diff / vega) 5)
        if |diff| < 0.001 then 1
        else 1 + estimate_iv_iters m market_price S K T option_type r n sigma'

/-- `estimate_iv_from_price` (indicators.py:144-175). -/
def estimate_iv_from_price (m : MathOracle) (market_price S K T : ℚ) (option_type : String)
    (r : ℚ) : ℚ :=
  if T ≤ 0 ∨ market_price ≤ 0 then 0.15
  else round_to 4 (estimate_iv_loop m market_price S K T option_type r 100 0.20)

/-- One entry of the position list passed to `compute_gamma_risk_score`.
Every call site passes all three keys, so the `dict.get` defaults of the
source are never exercised. -/
structure GammaPos where
  gamma : ℚ
  quantity : ℚ
  side : String
deriving Repr, DecidableEq

/-- The signed aggregate gamma exposure accumulated by the loop of
`compute_gamma_risk_score` (indicators.py:189-194). -/
def total_gamma_exposure (positions : List GammaPos) (spot : ℚ) : ℚ :=
  positions.foldl
    (fun acc pos => acc + (if pos.side = "SELL" then -1 else 1) * pos.gamma * pos.quantity * spot) 0

/-- `compute_gamma_risk_score` (indicators.py:180-199). -/
def compute_gamma_risk_score (positions : List GammaPos) (spot : ℚ) : ℚ :=
  let clamped := max (-50000) (min 50000 (total_gamma_exposure positions spot))
  round_to 2 (50 + clamped / 50000 * 50)

/-! ## Supertrend (indicators.py:20-83) -/

structure Bar where
  high : ℚ
  low : ℚ
  close : ℚ
deriving Repr, DecidableEq

/-- True range per bar (indicators.py:34-41).  For the first bar the
`close.shift(1)` terms are NaN and pandas' row-wise `max` skips them,
leaving `high - low`. -/
def true_range (bars : List Bar) : List ℚ :=
  match bars with
  | [] => []
  | b0 :: rest =>
    (b0.high - b0.low) ::
      (List.zip rest (b0 :: rest)).map (fun bp =>
        max (bp.1.high - bp.1.low) (max |bp.1.high - bp.2.close| |bp.1.low - bp.2.close|))

/-- Tail of `Series.ewm(span=span, adjust=False).mean()`:
`y_i = (1 - alpha) * y_{i-1} + alpha * x_i`. -/
def ewm_mean_go (alpha : ℚ) (prev : ℚ) : List ℚ → List ℚ
  | [] => []
  | x :: xs =>
    let y := (1 - alpha) * prev + alpha * x
    y :: ewm_mean_go alpha y xs

/-- `Series.ewm(span=span, adjust=False).mean()` with `y_0 = x_0` and
`alpha = 2 / (span + 1)`. -/
def ewm_mean (span : ℚ) (xs : List ℚ) : List ℚ :=
  match xs with
  | [] => []
  | x :: rest => x :: ewm_mean_go (2 / (span + 1)) x rest

/-- Body of the `for i in range(1, len(df))` loop of `compute_supertrend`
(indicators.py:50-79) at one index: given the previous direction/supertrend
value, previous-row bands and close, and the current-row bands and close,
produce `(direction_i, supertrend_i)`.  `isFirst` is the `i == 1` case where
the final bands are seeded from the current basic bands and the previous
direction defaults to `1`. -/
def st_step (isFirst : Bool) (dir_prev : Int) (st_prev ub_prev lb_prev close_prev : ℚ)
    (ub_i lb_i close_i : ℚ) : Int × ℚ :=
  let final_ub := if isFirst then ub_i else
    let prev_ub := if dir_prev = -1 then st_prev else ub_prev
    if ub_i < prev_ub ∨ close_prev > prev_ub then ub_i else prev_ub
  let final_lb := if isFirst then lb_i else
    let prev_lb := if dir_prev = 1 then st_prev else lb_prev
    if lb_i > prev_lb ∨ close_prev < prev_lb then lb_i else prev_lb
  let pd := if isFirst then 1 else dir_prev
  if pd = 1 then
    (if close_i < final_lb then ((-1 : Int), final_ub) else ((1 : Int), final_lb))
  else
    (if close_i > final_ub then ((1 : Int), final_lb) else ((-1 : Int), final_ub))

/-- The whole loop, walking rows `1..n-1`.  Each list entry of the input is
`(upper_band_i, lower_band_i, close_i)`; the carried state is the previous
row's direction, supertrend value, bands and close. -/
def st_loop (rows : List (ℚ × ℚ × ℚ)) (isFirst : Bool) (dir_prev : Int)
    (st_prev ub_prev lb_prev close_prev : ℚ) : List (Int × ℚ) :=
  match rows with
  | [] => []
  | (u, l, c) :: rest =>
    let ds := st_step isFirst dir_prev st_prev ub_prev lb_prev close_prev u l c
    ds :: st_loop rest false ds.1 ds.2 u l c

def zip3 {α β γ : Type} : List α → List β → List γ → List (α × β × γ)
  | a :: as, b :: bs, c :: cs => (a, b, c) :: zip3 as bs cs
  | _, _, _ => []

/-- The `st_direction` column produced by `compute_supertrend`
(indicators.py:20-83): `none` for the untouched first row (the known edge
case the spec documents), and the `{1: BULLISH, -1: BEARISH}` mapping for
every later row. -/
def compute_supertrend (bars : List Bar) (period multiplier : ℚ) : List (Option String) :=
  match bars with
  | [] => []
  | b0 :: rest =>
    let hl2 := (b0 :: rest).map (fun b => (b.high + b.low) / 2)
    let tr := true_range (b0 :: rest)
    let atr := ewm_mean period tr
    let ub := List.zipWith (fun h a => h + multiplier * a) hl2 atr
    let lb := List.zipWith (fun h a => h - multiplier * a) hl2 atr
    let closes := rest.map Bar.close
    let dirs := st_loop (zip3 ub.tail lb.tail closes) true 1 0 (ub.headD 0) (lb.headD 0) b0.close
    none :: dirs.map (fun ds =>
      if ds.1 = 1 then some "BULLISH" else if ds.1 = -1 then some "BEARISH" else none)

/-! ## Strategy engine (backend/core/strategy.py)

The engine's in-memory state (`self.*` of `GammaStrangleStrategy`) becomes
`StratState`; the constructor parameters and the threshold constants imported
from `core.config` become `Config`; broker/clock/DB-id externals become
`Env`.  Persistence calls (`insert_trade`, `update_trade`,
`insert_adjustment`) are modelled as an emitted `DBEvent` list (the
free-text `action`/`reason` audit strings of adjustment rows are abstracted
away; levels, spot, P&L and close reasons are kept).  `threading.Lock` is
not reentrant, so an operation that runs while the caller already holds
`self._lock` is modelled by an `Option` result, `none` meaning the second
`acquire` blocks forever. -/

structure Position where
  symbol : String
  strike : Int
  option_type : String
  side : String
  entry_price : ℚ
  current_price : ℚ
  quantity : Int
  greeks : Greeks
  is_hedge : Bool
  entry_time : ℚ
deriving Repr, DecidableEq

/-- `Position.__init__` (strategy.py:55-75): `current_price` starts at
`entry_price`. -/
def Position.new (symbol : String) (strike : Int) (option_type side : String)
    (entry_price : ℚ) (quantity : Int) (greeks : Greeks) (is_hedge : Bool) (now : ℚ) :
    Position :=
  { symbol := symbol, strike := strike, option_type := option_type, side := side,
    entry_price := entry_price, current_price := entry_price, quantity := quantity,
    greeks := greeks, is_hedge := is_hedge, entry_time := now }

/-- `Position.pnl` (strategy.py:77-80). -/
def Position.pnl (p : Position) : ℚ :=
  (if p.side = "SELL" then (-1 : ℚ) else 1) * (p.entry_price - p.current_price) * (p.quantity : ℚ)

/-- `Position.delta_exposure` (strategy.py:82-85). -/
def Position.delta_exposure (p : Position) : ℚ :=
  (if p.side = "SELL" then (-1 : ℚ) else 1) * p.greeks.delta * (p.quantity : ℚ)

inductive DBEvent where
  | insertTrade (tradeId : Nat) (quantity : Int) (premium : ℚ)
  | updateTradeUnrealized (tradeId : Nat) (unrealized : ℚ)
  | insertAdjustment (tradeId : Nat) (level : Nat) (spotAtAdj pnlAtAdj : ℚ)
  | updateTradeAdjLevel (tradeId : Nat) (level : Nat)
  | updateTradeClosed (tradeId : Nat) (realized : ℚ) (closeReason : String)
deriving Repr, DecidableEq

/-- Constructor parameters of `GammaStrangleStrategy` plus the threshold
constants `strategy.py` imports from `core.config`.  The L1/L2/L3 gamma
thresholds, delta targets and expiry parameters are imported names that
`src/backend/core/config.py` does not define, so they stay symbolic here;
the source's inline comments give the intended values (L1 = 0.6% spot move /
+40% premium, L2 = delta 35, L3 = 1.2% move within 45 minutes). -/
structure Config where
  capital : ℚ
  risk_pct : ℚ
  num_lots : Nat
  max_trades_per_day : Nat
  ce_delta_target : ℚ
  pe_delta_target : ℚ
  hedge_delta_target : ℚ
  expiry_otm_offset : Int
  gamma_l1_spot_move : ℚ
  gamma_l1_premium_pct : ℚ
  gamma_l2_delta_limit : ℚ
  gamma_l3_spot_move : ℚ
  gamma_l3_time_window : ℚ
  expiry_target_pct : ℚ
  expiry_stop_mult : ℚ

/-- One tick's external world: the math library, the Fyers market data
calls, the clock (`now` in seconds, plus the derived time-of-day and
day-rollover flag), the DB reads and the id `insert_trade` will assign. -/
structure Env where
  math : MathOracle
  get_spot_price : Option ℚ
  get_option_ltp : String → Option ℚ
  now : ℚ
  time_of_day_min : ℚ
  is_new_day : Bool
  db_trade_count_today : Nat
  db_open_trades : Nat
  expiry : String
  expiry_time : ℚ
  next_trade_id : Nat

structure StratState where
  active_positions : List (Nat × List Position)
  entry_spot : List (Nat × ℚ)
  entry_time : List (Nat × ℚ)
  adjustment_counts : List (Nat × Nat)
  trade_premium : List (Nat × ℚ)
  spot : ℚ
  supertrend_dir : String
  is_running : Bool
  trades_today : Nat
  daily_pnl : ℚ
deriving Repr, DecidableEq

/-- `GammaStrangleStrategy.__init__` (strategy.py:103-137). -/
def initial_state : StratState :=
  { active_positions := [], entry_spot := [], entry_time := [], adjustment_counts := [],
    trade_premium := [], spot := 0, supertrend_dir := "UNKNOWN", is_running := false,
    trades_today := 0, daily_pnl := 0 }

/-- `build_option_symbol` (fyers_client.py:232-239). -/
def build_option_symbol (strike : Int) (option_type expiry_str : String) : String :=
  "NSE:NIFTY" ++ expiry_str ++ toString strike ++ option_type

/-- `round_to_strike` (fyers_client.py:255-257); Python's banker rounding
and `round` differ only at exact half-ties of `price / step`. -/
def round_to_strike (price : ℚ) (step : Int) : Int :=
  round (price / (step : ℚ)) * step

/-- `max((expiry_dt - datetime.now(IST)).total_seconds() / (365*24*3600), 0.001)`,
the time-to-expiry computation repeated at strategy.py:228, 562, 581. -/
def time_to_expiry (env : Env) : ℚ :=
  max ((env.expiry_time - env.now) / (365 * 24 * 3600)) 0.001

/-- The Black-Scholes fallback price of `_get_simulated_ltp`
(strategy.py:526-533). -/
def bs_fallback_price (env : Env) (spot : ℚ) (strike : Int) (T : ℚ) (opt_type : String) : ℚ :=
  let d1 := if 0 < T then
      (env.math.log (spot / (strike : ℚ)) + (0.065 + 0.5 * 0.15 ^ 2) * T) / (0.15 * env.math.sqrt T)
    else 0
  let price := if opt_type = "CE" then
      spot * env.math.cdf d1
        - (strike : ℚ) * env.math.exp (-(0.065 * T)) * env.math.cdf (d1 - 0.15 * env.math.sqrt T)
    else
      (strike : ℚ) * env.math.exp (-(0.065 * T)) * env.math.cdf (-(d1 - 0.15 * env.math.sqrt T))
        - spot * env.math.cdf (-d1)
  max 0.05 (round_to 2 price)

/-- `_get_simulated_ltp` (strategy.py:517-533): live quote if present and
positive, else the theoretical fallback (`if ltp and ltp > 0` also falls
back on a 0.0 quote). -/
def get_simulated_ltp (env : Env) (symbol : String) (spot : ℚ) (strike : Int) (T : ℚ)
    (opt_type : String) : ℚ :=
  match env.get_option_ltp symbol with
  | some ltp => if 0 < ltp then ltp else bs_fallback_price env spot strike T opt_type
  | none => bs_fallback_price env spot strike T opt_type

/-- `_find_strike_by_delta` (strategy.py:535-555): linear scan of
`range(base-1500, base+1550, 50)`; `none` as second component plays the
role of the initial `best_diff = inf`. -/
def find_strike_by_delta (env : Env) (spot T target_delta : ℚ) (opt_type : String) : Int :=
  let base := round_to_strike spot 50
  let candidates := (List.range 61).map (fun i => base - 1500 + 50 * (i : Int))
  (candidates.foldl
    (fun (best : Int × Option ℚ) (strike : Int) =>
      let greeks := black_scholes_greeks env.math spot (strike : ℚ) T 0.065 0.15 opt_type
      let diff := |(|greeks.delta|) - target_delta|
      match best.2 with
      | none => (strike, some diff)
      | some bd => if diff < bd then (strike, some diff) else best)
    ((base, none) : Int × Option ℚ)).1

/-- `calculate_mtm(trade_id)` (strategy.py:481-483). -/
def calculate_mtm_trade (s : StratState) (trade_id : Nat) : ℚ :=
  (((alookup s.active_positions trade_id).getD []).map Position.pnl).sum

/-- `calculate_mtm()` with no argument (strategy.py:485-488). -/
def calculate_mtm_total (s : StratState) : ℚ :=
  (s.active_positions.map (fun kv => (kv.2.map Position.pnl).sum)).sum

/-- `_record_adjustment` (strategy.py:621-633): one `insert_adjustment` row
plus the `adjustment_level` trade update. -/
def record_adjustment (trade_id level : Nat) (spot pnl : ℚ) : List DBEvent :=
  [DBEvent.insertAdjustment trade_id level spot pnl, DBEvent.updateTradeAdjLevel trade_id level]

/-- `close_position` (strategy.py:427-465).  The unknown-id check precedes
the lock acquisition; `lock_held` says whether the caller already holds
`self._lock`, in which case the `with self._lock` inside deadlocks
(`none`). -/
def close_position (lock_held : Bool) (s : StratState) (trade_id : Nat) (reason : String) :
    Option (ℚ × StratState × List DBEvent) :=
  if amem s.active_positions trade_id = false then some (0, s, [])
  else if lock_held then none
  else
    let pnl := calculate_mtm_trade s trade_id
    let s' := { s with
      active_positions := apop s.active_positions trade_id,
      entry_spot := apop s.entry_spot trade_id,
      entry_time := apop s.entry_time trade_id,
      adjustment_counts := apop s.adjustment_counts trade_id,
      trade_premium := apop s.trade_premium trade_id,
      daily_pnl := s.daily_pnl + pnl }
    some (pnl, s', [DBEvent.updateTradeClosed trade_id pnl reason])

/-- `_roll_leg` (strategy.py:577-594): in-place replacement of one leg of
the structure's list (`remove` + `append`), the dict keys untouched. -/
def roll_leg (env : Env) (s : StratState) (trade_id : Nat) (old_pos : Position) (spot : ℚ) :
    StratState :=
  let T := time_to_expiry env
  let new_strike := find_strike_by_delta env spot T 0.20 old_pos.option_type
  let new_sym := build_option_symbol new_strike old_pos.option_type env.expiry
  let new_px := get_simulated_ltp env new_sym spot new_strike T old_pos.option_type
  let new_greeks := black_scholes_greeks env.math spot (new_strike : ℚ) T 0.065 0.15 old_pos.option_type
  let replace := fun (ps : List Position) => ps.erase old_pos ++
    [Position.new new_sym new_strike old_pos.option_type "SELL" new_px old_pos.quantity
      new_greeks false env.now]
  { s with active_positions := amodify s.active_positions trade_id replace }

/-- `_roll_untested_leg` (strategy.py:596-605); Python's `max(..., key=...)`
keeps the first maximal element. -/
def roll_untested_leg (env : Env) (s : StratState) (trade_id : Nat) (spot : ℚ) : StratState :=
  let positions := (alookup s.active_positions trade_id).getD []
  let short_legs := positions.filter (fun p => p.side == "SELL" && !p.is_hedge)
  match short_legs with
  | [] => s
  | p0 :: rest =>
    let untested := rest.foldl
      (fun best p => if |(p.strike : ℚ) - spot| > |(best.strike : ℚ) - spot| then p else best) p0
    roll_leg env s trade_id untested spot

/-- First truthy value of Python's `spot or self.fyers.get_spot_price() or
self.spot` (both `None` and `0.0` are falsy). -/
def first_truthy (a b : Option ℚ) (c : ℚ) : ℚ :=
  match a with
  | some x => if x ≠ 0 then x else match b with
      | some y => if y ≠ 0 then y else c
      | none => c
  | none => match b with
      | some y => if y ≠ 0 then y else c
      | none => c

/-- `adjust_positions` (strategy.py:359-423) — the three-level gamma defence
model, first matching level acts then returns.  The direct dict indexing of
`entry_spot`/`entry_time`/`trade_premium` (a `KeyError` if the key were
absent) is modelled with default-0 lookups; under the key-alignment
invariant the keys are present whenever the guard on `active_positions`
passes.  The lock is free on this path, so the inner `close_position`
acquires it normally. -/
def adjust_positions (cfg : Config) (env : Env) (s : StratState) (trade_id : Nat)
    (spot_arg : Option ℚ) : StratState × List DBEvent :=
  if amem s.active_positions trade_id = false then (s, [])
  else
    let spot := first_truthy spot_arg env.get_spot_price s.spot
    if spot = 0 then (s, [])
    else
      let positions := (alookup s.active_positions trade_id).getD []
      let entry_s := (alookup s.entry_spot trade_id).getD 0
      let entry_t := (alookup s.entry_time trade_id).getD 0
      let adj_count := (alookup s.adjustment_counts trade_id).getD 0
      let premium := (alookup s.trade_premium trade_id).getD 0
      let current_pnl := calculate_mtm_trade s trade_id
      let spot_move := |spot - entry_s| / entry_s
      let elapsed_min := (env.now - entry_t) / 60
      if spot_move ≥ cfg.gamma_l3_spot_move ∧ elapsed_min ≤ cfg.gamma_l3_time_window then
        let evs := record_adjustment trade_id 3 spot current_pnl
        match close_position false s trade_id "GAMMA_L3" with
        | some r => (r.2.1, evs ++ r.2.2)
        | none => (s, evs)
      else
        match positions.find?
            (fun p => p.side == "SELL" && !p.is_hedge
              && decide (|p.greeks.delta| * 100 > cfg.gamma_l2_delta_limit)) with
        | some pos =>
          let evs := record_adjustment trade_id 2 spot current_pnl
          let s' := roll_leg env s trade_id pos spot
          let s2 := { s' with adjustment_counts := aset s'.adjustment_counts trade_id (adj_count + 1) }
          (s2, evs)
        | none =>
          let premium_change := if premium ≠ 0 then |current_pnl / premium| else 0
          if spot_move ≥ cfg.gamma_l1_spot_move ∨ premium_change ≥ cfg.gamma_l1_premium_pct then
            let evs := record_adjustment trade_id 1 spot current_pnl
            let s' := roll_untested_leg env s trade_id spot
            let s2 := { s' with adjustment_counts := aset s'.adjustment_counts trade_id (adj_count + 1) }
            (s2, evs)
          else (s, [])

/-- `check_entry` (strategy.py:166-207).  The date-rollover bookkeeping
(`self._trade_date`) is externalised into `env.is_new_day`; the session
window is 09:20-14:45. -/
def check_entry (cfg : Config) (env : Env) (s : StratState) : Bool × StratState :=
  if s.is_running = false then (false, s)
  else if ¬((9 * 60 + 20 : ℚ) ≤ env.time_of_day_min ∧ env.time_of_day_min ≤ 14 * 60 + 45) then
    (false, s)
  else
    let s1 := if env.is_new_day then { s with trades_today := env.db_trade_count_today } else s
    if s1.trades_today ≥ cfg.max_trades_per_day then (false, s1)
    else if s1.daily_pnl ≤ -(cfg.capital * (cfg.risk_pct / 100)) then (false, s1)
    else if s1.supertrend_dir = "UNKNOWN" then (false, s1)
    else if 1 ≤ env.db_open_trades then (false, s1)
    else (true, s1)

/-- `open_position` (strategy.py:211-333).  The DB row's derived analytics
fields (net delta, gamma score) and the outbound notification are not part
of any claim and are left out of the event; the four legs, quantities,
premium and counters are exact. -/
def open_position (cfg : Config) (env : Env) (s : StratState) (strategy_type : String) :
    Option Nat × StratState × List DBEvent :=
  match check_entry cfg env s with
  | (false, s0) => (none, s0, [])
  | (true, s0) =>
    match env.get_spot_price with
    | none => (none, s0, [])
    | some spot =>
      if spot = 0 then (none, s0, [])
      else
        let s1 := { s0 with spot := spot }
        let T := time_to_expiry env
        let strikes :=
          if strategy_type = "EXPIRY" ∧ (9 * 60 + 45 : ℚ) ≤ env.time_of_day_min then
            let atm := round_to_strike spot 50
            (atm + cfg.expiry_otm_offset, atm - cfg.expiry_otm_offset,
             atm + cfg.expiry_otm_offset + 150, atm - cfg.expiry_otm_offset - 150)
          else
            (find_strike_by_delta env spot T cfg.ce_delta_target "CE",
             find_strike_by_delta env spot T |cfg.pe_delta_target| "PE",
             find_strike_by_delta env spot T cfg.hedge_delta_target "CE",
             find_strike_by_delta env spot T cfg.hedge_delta_target "PE")
        let ce_strike := strikes.1
        let pe_strike := strikes.2.1
        let ce_hedge_strike := strikes.2.2.1
        let pe_hedge_strike := strikes.2.2.2
        let ce_sym := build_option_symbol ce_strike "CE" env.expiry
        let pe_sym := build_option_symbol pe_strike "PE" env.expiry
        let ceh_sym := build_option_symbol ce_hedge_strike "CE" env.expiry
        let peh_sym := build_option_symbol pe_hedge_strike "PE" env.expiry
        let ce_px := get_simulated_ltp env ce_sym spot ce_strike T "CE"
        let pe_px := get_simulated_ltp env pe_sym spot pe_strike T "PE"
        let ceh_px := get_simulated_ltp env ceh_sym spot ce_hedge_strike T "CE"
        let peh_px := get_simulated_ltp env peh_sym spot pe_hedge_strike T "PE"
        let qty : Int := 65 * (cfg.num_lots : Int)
        let premium := (ce_px + pe_px - ceh_px - peh_px) * (qty : ℚ)
        let ce_greeks := black_scholes_greeks env.math spot (ce_strike : ℚ) T 0.065 0.15 "CE"
        let pe_greeks := black_scholes_greeks env.math spot (pe_strike : ℚ) T 0.065 0.15 "PE"
        let ceh_greeks := black_scholes_greeks env.math spot (ce_hedge_strike : ℚ) T 0.065 0.15 "CE"
        let peh_greeks := black_scholes_greeks env.math spot (pe_hedge_strike : ℚ) T 0.065 0.15 "PE"
        let max_loss_allowed := cfg.capital * (cfg.risk_pct / 100)
        let estimated_max_loss := |pe_px| * (qty : ℚ)
        if estimated_max_loss > max_loss_allowed then (none, s1, [])
        else
          let positions := [
            Position.new ce_sym ce_strike "CE" "SELL" ce_px qty ce_greeks false env.now,
            Position.new pe_sym pe_strike "PE" "SELL" pe_px qty pe_greeks false env.now,
            Position.new ceh_sym ce_hedge_strike "CE" "BUY" ceh_px qty ceh_greeks true env.now,
            Position.new peh_sym pe_hedge_strike "PE" "BUY" peh_px qty peh_greeks true env.now]
          let trade_id := env.next_trade_id
          let s2 := { s1 with
            active_positions := aset s1.active_positions trade_id positions,
            entry_spot := aset s1.entry_spot trade_id spot,
            entry_time := aset s1.entry_time trade_id env.now,
            adjustment_counts := aset s1.adjustment_counts trade_id 0,
            trade_premium := aset s1.trade_premium trade_id premium,
            trades_today := s1.trades_today + 1 }
          (some trade_id, s2, [DBEvent.insertTrade trade_id qty premium])

/-- `_update_position_prices` (strategy.py:557-572): in-place refresh of
every leg's price and Greeks, then one `unrealized_pnl` trade update. -/
def update_position_prices (env : Env) (s : StratState) (trade_id : Nat) (spot : ℚ) :
    StratState × List DBEvent :=
  let positions := (alookup s.active_positions trade_id).getD []
  let T := time_to_expiry env
  let new_positions := positions.map (fun p =>
    { p with current_price := get_simulated_ltp env p.symbol spot p.strike T p.option_type,
             greeks := black_scholes_greeks env.math spot (p.strike : ℚ) T 0.065 0.15 p.option_type })
  let total_unrealised := (new_positions.map Position.pnl).sum
  ({ s with active_positions := amodify s.active_positions trade_id (fun _ => new_positions) },
   [DBEvent.updateTradeUnrealized trade_id total_unrealised])

/-- `_check_expiry_targets` (strategy.py:607-619). -/
def check_expiry_targets (cfg : Config) (s : StratState) (trade_id : Nat) :
    StratState × List DBEvent :=
  let premium := (alookup s.trade_premium trade_id).getD 0
  if premium ≤ 0 then (s, [])
  else
    let pnl := calculate_mtm_trade s trade_id
    if pnl ≥ premium * cfg.expiry_target_pct then
      match close_position false s trade_id "TARGET_HIT" with
      | some r => (r.2.1, r.2.2)
      | none => (s, [])
    else if pnl ≤ -(premium * cfg.expiry_stop_mult) then
      match close_position false s trade_id "STOP_LOSS" with
      | some r => (r.2.1, r.2.2)
      | none => (s, [])
    else (s, [])

/-- `monitor_positions` (strategy.py:337-355): for each trade id in the
entry snapshot, refresh prices, run the gamma defence, check the expiry
target/stop. -/
def monitor_positions (cfg : Config) (env : Env) (s : StratState) : StratState × List DBEvent :=
  if s.active_positions = [] then (s, [])
  else
    match env.get_spot_price with
    | none => (s, [])
    | some spot =>
      if spot = 0 then (s, [])
      else
        let s0 := { s with spot := spot }
        (akeys s0.active_positions).foldl
          (fun (acc : StratState × List DBEvent) trade_id =>
            let r1 := update_position_prices env acc.1 trade_id spot
            let r2 := adjust_positions cfg env r1.1 trade_id (some spot)
            let r3 := check_expiry_targets cfg r2.1 trade_id
            (r3.1, acc.2 ++ r1.2 ++ r2.2 ++ r3.2))
          (s0, [])

/-- `reset_day` (strategy.py:149-162).  The whole body runs inside
`with self._lock`, and `_force_close_trade` delegates to `close_position`,
which re-acquires the same non-reentrant `threading.Lock` whenever the trade
id is still live — so `none` (deadlock) results as soon as there is at
least one open structure. -/
def reset_day (s : StratState) : Option StratState :=
  match (akeys s.active_positions).foldlM
      (fun st trade_id => (close_position true st trade_id "DAY_RESET").map (fun r => r.2.1)) s with
  | none => none
  | some s1 => some { s1 with
      active_positions := [], entry_spot := [], entry_time := [],
      adjustment_counts := [], trade_premium := [], trades_today := 0, daily_pnl := 0 }

/-! ## Claim theorems -/

/-- A concrete stand-in for the scipy/math functions, used by witnesses. -/
def zero_oracle : MathOracle :=
  { cdf := fun _ => 0, pdf := fun _ => 0, log := fun _ => 0, sqrt := fun _ => 0, exp := fun _ => 0 }

/-- C6: for every spot, strike, rate, vol, option type (and any math
oracle), `black_scholes_greeks` with `timeToExpiry ≤ 0` returns
delta = gamma = theta = vega = 0 and echoes the input vol exactly. -/
theorem black_scholes_greeks_expired (m : MathOracle) (S K T r sigma : ℚ) (option_type : String)
    (h : T ≤ 0) :
    black_scholes_greeks m S K T r sigma option_type =
      { delta := 0, gamma := 0, theta := 0, vega := 0, iv := sigma } := by
  unfold black_scholes_greeks
  rw [if_pos h]

/-- Witness for C6 at spot 22000, strike 22100, T = 0, vol 0.27. -/
theorem black_scholes_greeks_expired_witness :
    black_scholes_greeks zero_oracle 22000 22100 0 0.065 0.27 "CE" =
      { delta := 0, gamma := 0, theta := 0, vega := 0, iv := 0.27 } :=
  black_scholes_greeks_expired zero_oracle 22000 22100 0 0.065 0.27 "CE" (le_refl 0)

/-- A SELL leg entered at 100 (quantity 65). -/
def sell_leg_example : Position :=
  Position.new "NSE:NIFTY25OCT1622200CE" 22200 "CE" "SELL" 100 65
    { delta := 0, gamma := 0, theta := 0, vega := 0, iv := 0.15 } false 0

/-- `sell_leg_example` after its price dropped to 90. -/
def sell_leg_dropped : Position := { sell_leg_example with current_price := 90 }

/-- C4 counterexample: a SELL leg whose current price fell strictly below
entry (100 → 90, quantity 65) has P&L −650 < 0 under `Position.pnl`,
refuting "a credit (SELL) position has strictly positive P&L whenever the
current price falls strictly below the entry price". -/
theorem position_pnl_counterexample :
    sell_leg_dropped.side = "SELL" ∧
    sell_leg_dropped.current_price < sell_leg_dropped.entry_price ∧
    0 < sell_leg_dropped.quantity ∧
    sell_leg_dropped.pnl = -650 ∧ ¬(0 < sell_leg_dropped.pnl) := by
  refine ⟨rfl, by norm_num [sell_leg_dropped, sell_leg_example, Position.new], by norm_num [sell_leg_dropped, sell_leg_example, Position.new], ?_, ?_⟩
  · norm_num [sell_leg_dropped, sell_leg_example, Position.new, Position.pnl]
  · norm_num [sell_leg_dropped, sell_leg_example, Position.new, Position.pnl]

/-- C4 (amended): a leg's P&L is sign(side) × (entryPrice − currentPrice) ×
quantity with sign(SELL) = −1, sign(BUY) = +1, and under this formula a
SELL leg has strictly *negative* P&L whenever the current price falls
strictly below the entry price (it gains when the price rises). -/
theorem position_pnl_formula (p : Position) :
    p.pnl = (if p.side = "SELL" then (-1 : ℚ) else 1) * (p.entry_price - p.current_price) * (p.quantity : ℚ) ∧
    (p.side = "SELL" → p.current_price < p.entry_price → 0 < p.quantity → p.pnl < 0) := by
  constructor
  · rfl
  · intro hside hlt hq
    unfold Position.pnl
    rw [if_pos hside]
    have h1 : 0 < p.entry_price - p.current_price := by linarith
    have h2 : (0:ℚ) < (p.quantity : ℚ) := by exact_mod_cast hq
    nlinarith

/-- Witness for C4 at the concrete dropped-price SELL leg. -/
theorem position_pnl_formula_witness : sell_leg_dropped.pnl < 0 :=
  (position_pnl_formula sell_leg_dropped).2 rfl
    (by norm_num [sell_leg_dropped, sell_leg_example, Position.new])
    (by norm_num [sell_leg_dropped, sell_leg_example, Position.new])

theorem amem_apop_self {α : Type} (m : List (Nat × α)) (k : Nat) :
    amem (apop m k) k = false := by
  unfold amem apop
  induction m with
  | nil => rfl
  | cons p rest ih =>
      simp only [List.filter_cons]
      by_cases h : p.1 == k
      · simp [h, ih]
      · simp [h, ih]

/-- `close_position` on a live id pops the id from all five maps. -/
theorem close_position_live (s : StratState) (trade_id : Nat) (reason : String)
    (h : amem s.active_positions trade_id = true) :
    close_position false s trade_id reason =
      some (calculate_mtm_trade s trade_id,
        { s with
          active_positions := apop s.active_positions trade_id,
          entry_spot := apop s.entry_spot trade_id,
          entry_time := apop s.entry_time trade_id,
          adjustment_counts := apop s.adjustment_counts trade_id,
          trade_premium := apop s.trade_premium trade_id,
          daily_pnl := s.daily_pnl + calculate_mtm_trade s trade_id },
        [DBEvent.updateTradeClosed trade_id (calculate_mtm_trade s trade_id) reason]) := by
  unfold close_position
  rw [if_neg (by simp [h])]
  rfl

/-- C3: closing a trade id that is not in the live ledger returns 0.0 P&L,
leaves the state untouched and issues no persistence write; consequently a
second `close_position` on an id closed by a prior successful call is a
pure no-op returning 0.0. -/
theorem close_position_unknown_noop (s : StratState) (trade_id : Nat) (lock_held : Bool)
    (reason : String) (h : amem s.active_positions trade_id = false) :
    close_position lock_held s trade_id reason = some (0, s, []) ∧
    (∀ (s0 : StratState) (r0 : String) (res : ℚ × StratState × List DBEvent),
      close_position false s0 trade_id r0 = some res →
      close_position lock_held res.2.1 trade_id reason = some (0, res.2.1, [])) := by
  constructor
  · unfold close_position
    rw [if_pos h]
  · intro s0 r0 res hclose
    have habs : amem res.2.1.active_positions trade_id = false := by
      unfold close_position at hclose
      by_cases h0 : amem s0.active_positions trade_id = false
      · rw [if_pos h0] at hclose
        have : res.2.1 = s0 := by
          cases hclose
          rfl
        rw [this]
        exact h0
      · rw [if_neg h0] at hclose
        simp only [if_neg, Bool.not_eq_true] at hclose
        have : res.2.1.active_positions = apop s0.active_positions trade_id := by
          cases hclose
          rfl
        rw [this]
        exact amem_apop_self _ _
    unfold close_position
    rw [if_pos habs]

/-- Witness for C3: unknown id 7 on the empty initial state, and the second
of two closes of id 1 on a one-structure state. -/
theorem close_position_unknown_noop_witness :
    close_position false initial_state 7 "MANUAL" = some (0, initial_state, []) :=
  (close_position_unknown_noop initial_state 7 false "MANUAL" rfl).1

theorem estimate_iv_loop_bounds (m : MathOracle) (mp S K T : ℚ) (ot : String) (r : ℚ) :
    ∀ (fuel : Nat) (sigma : ℚ), 0.01 ≤ sigma → sigma ≤ 5 →
      0.01 ≤ estimate_iv_loop m mp S K T ot r fuel sigma ∧
        estimate_iv_loop m mp S K T ot r fuel sigma ≤ 5 := by
  intro fuel
  induction fuel with
  | zero => intro sigma h1 h2; exact ⟨h1, h2⟩
  | succ n ih =>
      intro sigma h1 h2
      unfold estimate_iv_loop
      cases hstep : estimate_iv_step m S K T ot r sigma with
      | none => exact ⟨h1, h2⟩
      | some pv =>
          rcases pv with ⟨price, vega⟩
          by_cases hv : |vega| < 1e-10
          · simp only [hv, if_true]
            exact ⟨h1, h2⟩
          · simp only [hv, if_false]
            have hb1 : (0.01 : ℚ) ≤ max 0.01 (min (sigma + (mp - price) / vega) 5) :=
              le_max_left _ _
            have hb2 : max (0.01 : ℚ) (min (sigma + (mp - price) / vega) 5) ≤ 5 :=
              max_le (by norm_num) (min_le_right _ _)
            by_cases hd : |mp - price| < 0.001
            · simp only [hd, if_true]
              exact ⟨hb1, hb2⟩
            · simp only [hd, if_false]
              exact ih _ hb1 hb2

theorem estimate_iv_iters_le_fuel (m : MathOracle) (mp S K T : ℚ) (ot : String) (r : ℚ) :
    ∀ (fuel : Nat) (sigma : ℚ), estimate_iv_iters m mp S K T ot r fuel sigma ≤ fuel := by
  intro fuel
  induction fuel with
  | zero => intro sigma; exact le_refl 0
  | succ n ih =>
      intro sigma
      unfold estimate_iv_iters
      cases hstep : estimate_iv_step m S K T ot r sigma with
      | none => exact Nat.succ_le_succ (Nat.zero_le n)
      | some pv =>
          rcases pv with ⟨price, vega⟩
          by_cases hv : |vega| < 1e-10
          · simp only [hv, if_true]
            exact Nat.succ_le_succ (Nat.zero_le n)
          · simp only [hv, if_false]
            by_cases hd : |mp - price| < 0.001
            · simp only [hd, if_true]
              exact Nat.succ_le_succ (Nat.zero_le n)
            · simp only [hd, if_false]
              have := ih (max 0.01 (min (sigma + (mp - price) / vega) 5))
              omega

theorem round_to_4_hundredth : round_to 4 (0.01 : ℚ) = 0.01 := by
  norm_num [round_to, round_eq]

theorem round_to_4_five : round_to 4 (5 : ℚ) = 5 := by
  norm_num [round_to, round_eq]

/-- C7: `estimate_iv_from_price` executes at most 100 Newton-Raphson loop
bodies, and its result always lies in [0.01, 5.0] — on the degenerate-input
early return, on the small-vega and converged early exits, on the
exception path and on non-convergence — for every input and oracle. -/
theorem estimate_iv_from_price_bounds (m : MathOracle) (market_price S K T : ℚ)
    (option_type : String) (r : ℚ) :
    estimate_iv_iters m market_price S K T option_type r 100 0.20 ≤ 100 ∧
    0.01 ≤ estimate_iv_from_price m market_price S K T option_type r ∧
    estimate_iv_from_price m market_price S K T option_type r ≤ 5 := by
  refine ⟨estimate_iv_iters_le_fuel m market_price S K T option_type r 100 0.20, ?_, ?_⟩
  all_goals
    unfold estimate_iv_from_price
    split_ifs with h
  · norm_num
  · have hb := estimate_iv_loop_bounds m market_price S K T option_type r 100 0.20
      (by norm_num) (by norm_num)
    calc (0.01 : ℚ) = round_to 4 0.01 := round_to_4_hundredth.symm
    _ ≤ round_to 4 (estimate_iv_loop m market_price S K T option_type r 100 0.20) :=
        round_to_mono hb.1
  · norm_num
  · have hb := estimate_iv_loop_bounds m market_price S K T option_type r 100 0.20
      (by norm_num) (by norm_num)
    calc round_to 4 (estimate_iv_loop m market_price S K T option_type r 100 0.20)
        ≤ round_to 4 5 := round_to_mono hb.2
    _ = 5 := round_to_4_five

theorem round_to_2_zero : round_to 2 (0 : ℚ) = 0 := by
  norm_num [round_to, round_eq]

theorem round_to_2_fifty : round_to 2 (50 : ℚ) = 50 := by
  norm_num [round_to, round_eq]

theorem round_to_2_hundred : round_to 2 (100 : ℚ) = 100 := by
  norm_num [round_to, round_eq]

/-- C8: the gamma risk score lies in [0,100] for every leg list and spot,
equals exactly 50 when the signed aggregate gamma exposure is 0, and is
monotone: a leg set with smaller aggregate exposure never scores above one
with larger aggregate exposure. -/
theorem gamma_risk_score_properties (l1 l2 : List GammaPos) (spot : ℚ)
    (h : total_gamma_exposure l1 spot ≤ total_gamma_exposure l2 spot) :
    (0 ≤ compute_gamma_risk_score l1 spot ∧ compute_gamma_risk_score l1 spot ≤ 100) ∧
    (total_gamma_exposure l1 spot = 0 → compute_gamma_risk_score l1 spot = 50) ∧
    compute_gamma_risk_score l1 spot ≤ compute_gamma_risk_score l2 spot := by
  have score_mono : ∀ e1 e2 : ℚ, e1 ≤ e2 →
      round_to 2 (50 + max (-50000) (min 50000 e1) / 50000 * 50) ≤
        round_to 2 (50 + max (-50000) (min 50000 e2) / 50000 * 50) := by
    intro e1 e2 he
    apply round_to_mono
    have hc : max (-50000 : ℚ) (min 50000 e1) ≤ max (-50000) (min 50000 e2) :=
      max_le_max (le_refl _) (min_le_min (le_refl _) he)
    have h1 : max (-50000 : ℚ) (min 50000 e1) / 50000 * 50 =
        max (-50000 : ℚ) (min 50000 e1) * (1 / 1000) := by ring
    have h2 : max (-50000 : ℚ) (min 50000 e2) / 50000 * 50 =
        max (-50000 : ℚ) (min 50000 e2) * (1 / 1000) := by ring
    rw [h1, h2]
    nlinarith
  have score_bounds : ∀ e : ℚ,
      0 ≤ round_to 2 (50 + max (-50000) (min 50000 e) / 50000 * 50) ∧
        round_to 2 (50 + max (-50000) (min 50000 e) / 50000 * 50) ≤ 100 := by
    intro e
    have hlo : (-50000 : ℚ) ≤ max (-50000) (min 50000 e) := le_max_left _ _
    have hhi : max (-50000 : ℚ) (min 50000 e) ≤ 50000 :=
      max_le (by norm_num) (min_le_left _ _)
    have heq : max (-50000 : ℚ) (min 50000 e) / 50000 * 50 =
        max (-50000 : ℚ) (min 50000 e) * (1 / 1000) := by ring
    constructor
    · calc (0 : ℚ) = round_to 2 0 := round_to_2_zero.symm
      _ ≤ _ := round_to_mono (by rw [heq]; nlinarith)
    · calc round_to 2 (50 + max (-50000) (min 50000 e) / 50000 * 50)
          ≤ round_to 2 100 := round_to_mono (by rw [heq]; nlinarith)
      _ = 100 := round_to_2_hundred
  refine ⟨?_, ?_, ?_⟩
  · exact score_bounds _
  · intro h0
    unfold compute_gamma_risk_score
    rw [h0]
    norm_num [round_to_2_fifty]
  · exact score_mono _ _ h

/-- Witness for C8: a single short-gamma leg against the empty leg set at
spot 22000. -/
theorem gamma_risk_score_properties_witness :
    compute_gamma_risk_score [{ gamma := 0.0004, quantity := 65, side := "SELL" }] 22000 ≤
      compute_gamma_risk_score [] 22000 :=
  (gamma_risk_score_properties [{ gamma := 0.0004, quantity := 65, side := "SELL" }] [] 22000
    (by norm_num [total_gamma_exposure])).2.2

/-- A second SELL leg for a second structure. -/
def sell_leg_example2 : Position :=
  Position.new "NSE:NIFTY25OCT1621800PE" 21800 "PE" "SELL" 120 65
    { delta := 0, gamma := 0, theta := 0, vega := 0, iv := 0.15 } false 0

/-- A live state holding two open structures (ids 1 and 2). -/
def two_open_state : StratState :=
  { active_positions := [(1, [sell_leg_example]), (2, [sell_leg_example2])],
    entry_spot := [(1, 22000), (2, 22050)],
    entry_time := [(1, 0), (2, 0)],
    adjustment_counts := [(1, 0), (2, 0)],
    trade_premium := [(1, 14300), (2, 7800)],
    spot := 22000, supertrend_dir := "BULLISH", is_running := true,
    trades_today := 2, daily_pnl := 0 }

/-- C5: `reset_day` on a day with two open structures never reaches the
claimed post-state at all — it deadlocks.  `reset_day` executes its whole
body holding `self._lock` and calls `close_position` on each live id, which
re-acquires the same non-reentrant `threading.Lock` (modelled as the `none`
result as soon as one live id is closed under the held lock). -/
theorem reset_day_deadlocks_on_open_structures : reset_day two_open_state = none := by
  rfl

/-- C1 (amended: the close-reason string the code passes is "GAMMA_L3", the
spec's label "L3" names the level): whenever the Level-3 condition holds
for an open structure — |spot−entrySpot|/entrySpot ≥ the L3 move threshold
and elapsed minutes ≤ the L3 time window — one tick of the gamma defence
emits exactly one adjustment record, with level 3, closes the entire
structure (reason "GAMMA_L3", all five per-trade maps popped, realized P&L
folded into the daily P&L) and performs no Level-1/Level-2 record and no
roll: the surviving ledger is exactly the old one minus this trade. -/
theorem adjust_positions_l3_closes (cfg : Config) (env : Env) (s : StratState)
    (trade_id : Nat) (spot : ℚ) (hspot : spot ≠ 0)
    (hmem : amem s.active_positions trade_id = true)
    (hmove : |spot - (alookup s.entry_spot trade_id).getD 0| /
        (alookup s.entry_spot trade_id).getD 0 ≥ cfg.gamma_l3_spot_move)
    (htime : (env.now - (alookup s.entry_time trade_id).getD 0) / 60 ≤ cfg.gamma_l3_time_window) :
    adjust_positions cfg env s trade_id (some spot) =
      ({ s with
          active_positions := apop s.active_positions trade_id,
          entry_spot := apop s.entry_spot trade_id,
          entry_time := apop s.entry_time trade_id,
          adjustment_counts := apop s.adjustment_counts trade_id,
          trade_premium := apop s.trade_premium trade_id,
          daily_pnl := s.daily_pnl + calculate_mtm_trade s trade_id },
       [DBEvent.insertAdjustment trade_id 3 spot (calculate_mtm_trade s trade_id),
        DBEvent.updateTradeAdjLevel trade_id 3,
        DBEvent.updateTradeClosed trade_id (calculate_mtm_trade s trade_id) "GAMMA_L3"]) := by
  have hft : first_truthy (some spot) env.get_spot_price s.spot = spot := by
    simp [first_truthy, hspot]
  unfold adjust_positions
  rw [if_neg (by simp [hmem])]
  simp only [hft]
  rw [if_neg hspot]
  rw [if_pos ⟨hmove, htime⟩]
  rw [close_position_live s trade_id "GAMMA_L3" hmem]
  simp [record_adjustment]

/-- The threshold values the source's comments document (L1: 0.6% move or
+40% premium, L2: delta 35, L3: 1.2% within 45 min) with the constructor
defaults (10 lakh capital, 2% risk, 1 lot). -/
def cfg_example : Config :=
  { capital := 1000000, risk_pct := 2, num_lots := 1, max_trades_per_day := 2,
    ce_delta_target := 0.22, pe_delta_target := 0.22, hedge_delta_target := 0.10,
    expiry_otm_offset := 100, gamma_l1_spot_move := 0.006, gamma_l1_premium_pct := 0.40,
    gamma_l2_delta_limit := 35, gamma_l3_spot_move := 0.012, gamma_l3_time_window := 45,
    expiry_target_pct := 0.5, expiry_stop_mult := 1.5 }

/-- A tick environment 600 seconds (10 minutes) after the entries of
`one_open_state`/`two_open_state`, quoting spot 22300. -/
def env_example : Env :=
  { math := zero_oracle, get_spot_price := some 22300, get_option_ltp := fun _ => some 100,
    now := 600, time_of_day_min := 600, is_new_day := false, db_trade_count_today := 0,
    db_open_trades := 0, expiry := "25OCT16", expiry_time := 600, next_trade_id := 3 }

/-- A live state holding one open structure (id 1, entry spot 22000). -/
def one_open_state : StratState :=
  { two_open_state with
    active_positions := [(1, [sell_leg_example])],
    entry_spot := [(1, 22000)],
    entry_time := [(1, 0)],
    adjustment_counts := [(1, 0)],
    trade_premium := [(1, 14300)],
    trades_today := 1 }

/-- Witness for C1: entrySpot 22000, spot 22300 (a 1.36% move) 10 minutes
after entry, against the 1.2%/45min thresholds. -/
theorem adjust_positions_l3_closes_witness :
    adjust_positions cfg_example env_example one_open_state 1 (some 22300) =
      ({ one_open_state with
          active_positions := [], entry_spot := [], entry_time := [],
          adjustment_counts := [], trade_premium := [], daily_pnl := 0 },
       [DBEvent.insertAdjustment 1 3 22300 0, DBEvent.updateTradeAdjLevel 1 3,
        DBEvent.updateTradeClosed 1 0 "GAMMA_L3"]) := by
  have h := adjust_positions_l3_closes cfg_example env_example one_open_state 1 22300
    (by norm_num)
    (by norm_num [amem, one_open_state, two_open_state])
    (by norm_num [alookup, one_open_state, two_open_state, cfg_example, List.find?])
    (by norm_num [alookup, one_open_state, two_open_state, cfg_example, env_example, List.find?])
  rw [h]
  norm_num [one_open_state, two_open_state, apop, calculate_mtm_trade, alookup, List.find?,
    List.filter, sell_leg_example, Position.new, Position.pnl]

/-- C1 counterexample (to the literal reason string): at the same concrete
Level-3 trigger the one close record carries reason "GAMMA_L3", and
"GAMMA_L3" is not the claimed "L3". -/
theorem adjust_positions_l3_reason_counterexample :
    (adjust_positions cfg_example env_example one_open_state 1 (some 22300)).2 =
      [DBEvent.insertAdjustment 1 3 22300 0, DBEvent.updateTradeAdjLevel 1 3,
       DBEvent.updateTradeClosed 1 0 "GAMMA_L3"] ∧
    ("GAMMA_L3" : String) ≠ "L3" := by
  constructor
  · norm_num [adjust_positions, amem, first_truthy, alookup, List.find?, one_open_state,
      two_open_state, cfg_example, env_example, close_position, record_adjustment,
      calculate_mtm_trade, sell_leg_example, Position.new, Position.pnl, apop, List.filter]
  · decide

theorem st_step_dir (isFirst : Bool) (dp : Int) (sp up lp cp u l c : ℚ) :
    (st_step isFirst dp sp up lp cp u l c).1 = 1 ∨ (st_step isFirst dp sp up lp cp u l c).1 = -1 := by
  unfold st_step
  split_ifs <;> simp_all <;> split_ifs <;> simp_all

theorem st_loop_dir_mem :
    ∀ (rows : List (ℚ × ℚ × ℚ)) (isFirst : Bool) (dp : Int) (sp up lp cp : ℚ)
      (ds : Int × ℚ), ds ∈ st_loop rows isFirst dp sp up lp cp → ds.1 = 1 ∨ ds.1 = -1 := by
  intro rows
  induction rows with
  | nil =>
      intro _ _ _ _ _ _ ds h
      simp [st_loop] at h
  | cons row rest ih =>
      intro isFirst dp sp up lp cp ds h
      rcases row with ⟨u, l, c⟩
      simp only [st_loop, List.mem_cons] at h
      rcases h with h | h
      · rw [h]
        exact st_step_dir isFirst dp sp up lp cp u l c
      · exact ih _ _ _ _ _ _ _ h

theorem st_loop_length :
    ∀ (rows : List (ℚ × ℚ × ℚ)) (isFirst : Bool) (dp : Int) (sp up lp cp : ℚ),
      (st_loop rows isFirst dp sp up lp cp).length = rows.length := by
  intro rows
  induction rows with
  | nil => intro _ _ _ _ _ _; rfl
  | cons row rest ih =>
      intro isFirst dp sp up lp cp
      rcases row with ⟨u, l, c⟩
      simp only [st_loop, List.length_cons]
      rw [ih]

theorem zip3_length {α β γ : Type} :
    ∀ (as : List α) (bs : List β) (cs : List γ),
      (zip3 as bs cs).length = min as.length (min bs.length cs.length) := by
  intro as
  induction as with
  | nil => intro bs cs; simp [zip3]
  | cons a as ih =>
      intro bs cs
      cases bs with
      | nil => simp [zip3]
      | cons b bs =>
          cases cs with
          | nil => simp [zip3]
          | cons c cs =>
              simp only [zip3, List.length_cons, ih]
              omega

theorem ewm_mean_go_length (alpha : ℚ) :
    ∀ (xs : List ℚ) (prev : ℚ), (ewm_mean_go alpha prev xs).length = xs.length := by
  intro xs
  induction xs with
  | nil => intro _; rfl
  | cons x rest ih =>
      intro prev
      simp only [ewm_mean_go, List.length_cons]
      rw [ih]

theorem ewm_mean_length (span : ℚ) (xs : List ℚ) : (ewm_mean span xs).length = xs.length := by
  cases xs with
  | nil => rfl
  | cons x rest =>
      simp only [ewm_mean, List.length_cons]
      rw [ewm_mean_go_length]

theorem true_range_length (bars : List Bar) : (true_range bars).length = bars.length := by
  cases bars with
  | nil => rfl
  | cons b0 rest =>
      simp only [true_range, List.length_cons, List.length_map, List.length_zip,
        List.length_cons]
      omega

theorem map_dir_get (dirs : List (Int × ℚ)) (j : Nat)
    (hall : ∀ ds ∈ dirs, ds.1 = 1 ∨ ds.1 = -1) (hj : j < dirs.length) :
    (dirs.map (fun ds =>
      if ds.1 = 1 then some "BULLISH" else if ds.1 = -1 then some "BEARISH" else none))[j]? =
        some (some "BULLISH") ∨
    (dirs.map (fun ds =>
      if ds.1 = 1 then some "BULLISH" else if ds.1 = -1 then some "BEARISH" else none))[j]? =
        some (some "BEARISH") := by
  rw [List.getElem?_map, List.getElem?_eq_getElem hj]
  have hd := hall _ (List.getElem_mem hj)
  rcases hd with h | h
  · left
    simp [h]
  · right
    simp [h]

/-- C9: for every ordered OHLC bar sequence, every bar after the first gets
a direction that is BULLISH or BEARISH — never missing. -/
theorem compute_supertrend_dir_defined (bars : List Bar) (period multiplier : ℚ) (i : Nat)
    (h1 : 1 ≤ i) (h2 : i < bars.length) :
    (compute_supertrend bars period multiplier)[i]? = some (some "BULLISH") ∨
    (compute_supertrend bars period multiplier)[i]? = some (some "BEARISH") := by
  match bars with
  | [] => simp at h2
  | b0 :: rest =>
    simp only [compute_supertrend]
    obtain ⟨j, rfl⟩ : ∃ j, i = j + 1 := ⟨i - 1, by omega⟩
    rw [List.getElem?_cons_succ]
    apply map_dir_get
    · intro ds hds
      exact st_loop_dir_mem _ _ _ _ _ _ _ _ hds
    · rw [st_loop_length, zip3_length]
      simp only [List.length_tail, List.length_zipWith, List.length_map,
        ewm_mean_length, true_range_length, List.length_cons]
      simp only [List.length_cons] at h2
      omega

/-- Witness for C9 on a two-bar series. -/
theorem compute_supertrend_dir_defined_witness :
    (compute_supertrend [{ high := 10, low := 10, close := 10 },
      { high := 10, low := 10, close := 10 }] 10 3)[1]? = some (some "BULLISH") ∨
    (compute_supertrend [{ high := 10, low := 10, close := 10 },
      { high := 10, low := 10, close := 10 }] 10 3)[1]? = some (some "BEARISH") :=
  compute_supertrend_dir_defined _ 10 3 1 (by norm_num) (by simp)

theorem find?_map_update {α : Type} (m : List (Nat × α)) (k : Nat) (v : α)
    (h : amem m k = true) :
    (m.map (fun p => if p.1 == k then (k, v) else p)).find? (fun p => p.1 == k) = some (k, v) := by
  induction m with
  | nil => simp [amem] at h
  | cons q rest ih =>
      by_cases hq : q.1 == k
      · simp only [List.map_cons, if_pos hq]
        simp
      · have hr : amem rest k = true := by
          simp only [amem, List.any_cons, Bool.or_eq_true] at h
          rcases h with h | h
          · exact absurd h hq
          · exact h
        simp only [List.map_cons, if_neg hq]
        rw [List.find?_cons_of_neg _ (by simpa using hq)]
        exact ih hr

theorem find?_eq_none_of_amem_false {α : Type} (m : List (Nat × α)) (k : Nat)
    (h : amem m k = false) : m.find? (fun p => p.1 == k) = none := by
  rw [List.find?_eq_none]
  intro x hx hpx
  have : amem m k = true := by
    unfold amem
    rw [List.any_eq_true]
    exact ⟨x, hx, hpx⟩
  rw [this] at h
  simp at h

theorem alookup_aset_self {α : Type} (m : List (Nat × α)) (k : Nat) (v : α) :
    alookup (aset m k v) k = some v := by
  unfold aset
  by_cases h : amem m k
  · rw [if_pos h]
    unfold alookup
    rw [find?_map_update m k v h]
    rfl
  · rw [if_neg h]
    unfold alookup
    rw [List.find?_append, find?_eq_none_of_amem_false m k (eq_false_of_ne_true h)]
    simp [List.find?]

theorem check_entry_keeps_maps (cfg : Config) (env : Env) (s : StratState) :
    (check_entry cfg env s).2.active_positions = s.active_positions ∧
    (check_entry cfg env s).2.entry_spot = s.entry_spot ∧
    (check_entry cfg env s).2.entry_time = s.entry_time ∧
    (check_entry cfg env s).2.adjustment_counts = s.adjustment_counts ∧
    (check_entry cfg env s).2.trade_premium = s.trade_premium := by
  unfold check_entry
  by_cases h1 : s.is_running = false <;>
    by_cases h2 : (9 * 60 + 20 : ℚ) ≤ env.time_of_day_min ∧ env.time_of_day_min ≤ 14 * 60 + 45 <;>
    by_cases h3 : env.is_new_day <;>
    simp only [h1, h2, h3, if_true, if_false] <;>
    first | (split_ifs <;> simp) | simp

theorem check_entry_keeps_counter (cfg : Config) (env : Env) (s : StratState)
    (h : env.is_new_day = false) :
    (check_entry cfg env s).2.trades_today = s.trades_today := by
  unfold check_entry
  simp only [h, Bool.false_eq_true, if_false]
  split_ifs <;> rfl

/-- The claim's net-credit vocabulary: sum of the entry premiums of the legs
on one side. -/
def sum_entry_premiums (side : String) (legs : List Position) : ℚ :=
  ((legs.filter (fun p => p.side == side)).map Position.entry_price).sum

/-- C2: a successful `open_position` registers a structure of exactly 4
legs — 2 SELL core legs and 2 BUY hedge legs — each with quantity = lot
size × number of lots, records a net credit of (sum of SELL entry premiums −
sum of BUY entry premiums) × quantity, and increments the trades-today
counter by exactly 1 (measured after the entry gate's day-rollover resync;
on a same-day call this is the caller's counter plus 1).  On any gate
failure or risk rejection it returns the no-result signal, leaves every
per-trade map untouched and inserts nothing — never a partial structure. -/
theorem open_position_contract (cfg : Config) (env : Env) (s : StratState) (stype : String) :
    (∀ tid s' evs, open_position cfg env s stype = (some tid, s', evs) →
      ∃ legs, alookup s'.active_positions tid = some legs ∧
        legs.length = 4 ∧
        (legs.filter (fun p => p.side == "SELL")).length = 2 ∧
        (legs.filter (fun p => p.side == "BUY")).length = 2 ∧
        (∀ p ∈ legs, p.side = "BUY" → p.is_hedge = true) ∧
        (∀ p ∈ legs, p.side = "SELL" → p.is_hedge = false) ∧
        (∀ p ∈ legs, p.quantity = 65 * (cfg.num_lots : Int)) ∧
        alookup s'.trade_premium tid =
          some ((sum_entry_premiums "SELL" legs - sum_entry_premiums "BUY" legs) *
            ((65 * (cfg.num_lots : Int) : Int) : ℚ)) ∧
        s'.trades_today = (check_entry cfg env s).2.trades_today + 1 ∧
        (env.is_new_day = false → s'.trades_today = s.trades_today + 1)) ∧
    (∀ s' evs, open_position cfg env s stype = (none, s', evs) →
      s'.active_positions = s.active_positions ∧ s'.entry_spot = s.entry_spot ∧
      s'.entry_time = s.entry_time ∧ s'.adjustment_counts = s.adjustment_counts ∧
      s'.trade_premium = s.trade_premium ∧ evs = []) := by
  constructor
  · intro tid s' evs heq
    unfold open_position at heq
    rcases hce : check_entry cfg env s with ⟨b, s0⟩
    rcases hsp : env.get_spot_price with _ | spot
    all_goals rw [hce, hsp] at heq
    all_goals cases b
    all_goals simp only [] at heq
    · simp at heq
    · simp at heq
    · simp at heq
    · by_cases hz : spot = 0
      · rw [if_pos hz] at heq
        simp at heq
      · rw [if_neg hz] at heq
        split at heq
        next hstrikes =>
          split at heq
          next hrisk => simp at heq
          next hrisk =>
            simp only [Prod.mk.injEq, Option.some.injEq] at heq
            obtain ⟨htid, hs', hevs⟩ := heq
            subst htid
            subst hs'
            refine ⟨_, alookup_aset_self _ _ _, rfl, ?_, ?_, ?_, ?_, ?_, ?_, ?_, ?_⟩
            · simp [Position.new]
            · simp [Position.new]
            · intro p hp
              simp only [List.mem_cons, List.not_mem_nil, or_false] at hp
              rcases hp with rfl | rfl | rfl | rfl <;> simp [Position.new]
            · intro p hp
              simp only [List.mem_cons, List.not_mem_nil, or_false] at hp
              rcases hp with rfl | rfl | rfl | rfl <;> simp [Position.new]
            · intro p hp
              simp only [List.mem_cons, List.not_mem_nil, or_false] at hp
              rcases hp with rfl | rfl | rfl | rfl <;> rfl
            · rw [alookup_aset_self]
              simp only [Option.some.injEq, sum_entry_premiums, Position.new]
              simp
              exact Or.inl (by ring)
            · simp [hce]
            · intro hnd
              have h2 := check_entry_keeps_counter cfg env s hnd
              rw [hce] at h2
              simp only [] at h2
              simp [h2]
        next hstrikes =>
          split at heq
          next hrisk => simp at heq
          next hrisk =>
            simp only [Prod.mk.injEq, Option.some.injEq] at heq
            obtain ⟨htid, hs', hevs⟩ := heq
            subst htid
            subst hs'
            refine ⟨_, alookup_aset_self _ _ _, rfl, ?_, ?_, ?_, ?_, ?_, ?_, ?_, ?_⟩
            · simp [Position.new]
            · simp [Position.new]
            · intro p hp
              simp only [List.mem_cons, List.not_mem_nil, or_false] at hp
              rcases hp with rfl | rfl | rfl | rfl <;> simp [Position.new]
            · intro p hp
              simp only [List.mem_cons, List.not_mem_nil, or_false] at hp
              rcases hp with rfl | rfl | rfl | rfl <;> simp [Position.new]
            · intro p hp
              simp only [List.mem_cons, List.not_mem_nil, or_false] at hp
              rcases hp with rfl | rfl | rfl | rfl <;> rfl
            · rw [alookup_aset_self]
              simp only [Option.some.injEq, sum_entry_premiums, Position.new]
              simp
              exact Or.inl (by ring)
            · simp [hce]
            · intro hnd
              have h2 := check_entry_keeps_counter cfg env s hnd
              rw [hce] at h2
              simp only [] at h2
              simp [h2]
  · intro s' evs heq
    have hmaps := check_entry_keeps_maps cfg env s
    unfold open_position at heq
    rcases hce : check_entry cfg env s with ⟨b, s0⟩
    rw [hce] at hmaps
    simp only [] at hmaps
    rcases hsp : env.get_spot_price with _ | spot
    all_goals rw [hce, hsp] at heq
    all_goals cases b
    all_goals simp only [] at heq
    · simp only [Prod.mk.injEq] at heq
      obtain ⟨-, hs2, hevs⟩ := heq
      subst hs2
      exact ⟨hmaps.1, hmaps.2.1, hmaps.2.2.1, hmaps.2.2.2.1, hmaps.2.2.2.2, hevs.symm⟩
    · simp only [Prod.mk.injEq] at heq
      obtain ⟨-, hs2, hevs⟩ := heq
      subst hs2
      exact ⟨hmaps.1, hmaps.2.1, hmaps.2.2.1, hmaps.2.2.2.1, hmaps.2.2.2.2, hevs.symm⟩
    · simp only [Prod.mk.injEq] at heq
      obtain ⟨-, hs2, hevs⟩ := heq
      subst hs2
      exact ⟨hmaps.1, hmaps.2.1, hmaps.2.2.1, hmaps.2.2.2.1, hmaps.2.2.2.2, hevs.symm⟩
    · by_cases hz : spot = 0
      · rw [if_pos hz] at heq
        simp only [Prod.mk.injEq] at heq
        obtain ⟨-, hs2, hevs⟩ := heq
        subst hs2
        exact ⟨hmaps.1, hmaps.2.1, hmaps.2.2.1, hmaps.2.2.2.1, hmaps.2.2.2.2, hevs.symm⟩
      · rw [if_neg hz] at heq
        split at heq
        all_goals split at heq
        all_goals first
          | (simp only [Prod.mk.injEq] at heq
             obtain ⟨-, hs2, hevs⟩ := heq
             subst hs2
             exact ⟨hmaps.1, hmaps.2.1, hmaps.2.2.1, hmaps.2.2.2.1, hmaps.2.2.2.2, hevs.symm⟩)
          | simp at heq

def zero_greeks_15 : Greeks := { delta := 0, gamma := 0, theta := 0, vega := 0, iv := 0.15 }

/-- A state passing every entry gate. -/
def ready_state : StratState :=
  { initial_state with is_running := true, supertrend_dir := "BULLISH" }

/-- Environment for a concrete expiry-day entry: spot 22000 quoted, every
option LTP 100, 10:00 session time, DB says no open trades. -/
def env_open : Env :=
  { math := zero_oracle, get_spot_price := some 22000, get_option_ltp := fun _ => some 100,
    now := 0, time_of_day_min := 600, is_new_day := false, db_trade_count_today := 0,
    db_open_trades := 0, expiry := "25OCT16", expiry_time := 0, next_trade_id := 1 }

/-- The four legs the expiry-day entry builds at spot 22000 (ATM 22000,
offset 100, hedges 150 further out, all priced at the quoted LTP 100). -/
def exp_legs : List Position :=
  [Position.new (build_option_symbol 22100 "CE" "25OCT16") 22100 "CE" "SELL" 100 65
      zero_greeks_15 false 0,
   Position.new (build_option_symbol 21900 "PE" "25OCT16") 21900 "PE" "SELL" 100 65
      zero_greeks_15 false 0,
   Position.new (build_option_symbol 22250 "CE" "25OCT16") 22250 "CE" "BUY" 100 65
      zero_greeks_15 true 0,
   Position.new (build_option_symbol 21750 "PE" "25OCT16") 21750 "PE" "BUY" 100 65
      zero_greeks_15 true 0]

def open_success_state : StratState :=
  { ready_state with
    active_positions := [(1, exp_legs)], entry_spot := [(1, 22000)], entry_time := [(1, 0)],
    adjustment_counts := [(1, 0)], trade_premium := [(1, 0)],
    spot := 22000, trades_today := 1 }

theorem check_entry_eval : check_entry cfg_example env_open ready_state = (true, ready_state) := by
  norm_num [check_entry, cfg_example, env_open, ready_state, initial_state]
  simp

theorem open_position_eval :
    open_position cfg_example env_open ready_state "EXPIRY" =
      (some 1, open_success_state, [DBEvent.insertTrade 1 65 0]) := by
  unfold open_position
  rw [check_entry_eval]
  norm_num [env_open, cfg_example, ready_state, initial_state,
    time_to_expiry, round_to_strike, round_eq, get_simulated_ltp, black_scholes_greeks,
    zero_oracle, Position.new, aset, amem, open_success_state, exp_legs, zero_greeks_15]

/-- Witness for C2: the concrete expiry-day entry at spot 22000 (ATM 22000,
four legs at LTP 100, net credit 0, trade id 1). -/
theorem open_position_contract_witness :
    ∃ legs, alookup open_success_state.active_positions 1 = some legs ∧
      legs.length = 4 ∧
      (legs.filter (fun p => p.side == "SELL")).length = 2 ∧
      (legs.filter (fun p => p.side == "BUY")).length = 2 ∧
      (∀ p ∈ legs, p.side = "BUY" → p.is_hedge = true) ∧
      (∀ p ∈ legs, p.side = "SELL" → p.is_hedge = false) ∧
      (∀ p ∈ legs, p.quantity = 65 * (cfg_example.num_lots : Int)) ∧
      alookup open_success_state.trade_premium 1 =
        some ((sum_entry_premiums "SELL" legs - sum_entry_premiums "BUY" legs) *
          ((65 * (cfg_example.num_lots : Int) : Int) : ℚ)) ∧
      open_success_state.trades_today =
        (check_entry cfg_example env_open ready_state).2.trades_today + 1 ∧
      (env_open.is_new_day = false → open_success_state.trades_today = ready_state.trades_today + 1) :=
  (open_position_contract cfg_example env_open ready_state "EXPIRY").1 1 open_success_state
    [DBEvent.insertTrade 1 65 0] open_position_eval

/-- C10's invariant: all five per-trade maps hold exactly the same keys (in
the same insertion order) as the position registry. -/
def keys_aligned (s : StratState) : Prop :=
  akeys s.entry_spot = akeys s.active_positions ∧
  akeys s.entry_time = akeys s.active_positions ∧
  akeys s.adjustment_counts = akeys s.active_positions ∧
  akeys s.trade_premium = akeys s.active_positions

theorem amem_eq_akeys {α : Type} (m : List (Nat × α)) (k : Nat) :
    amem m k = (akeys m).any (fun x => x == k) := by
  unfold amem akeys
  induction m with
  | nil => rfl
  | cons p rest ih => simp [List.any_cons, ih]

theorem amem_congr {α β : Type} (m1 : List (Nat × α)) (m2 : List (Nat × β)) (k : Nat)
    (h : akeys m1 = akeys m2) : amem m1 k = amem m2 k := by
  rw [amem_eq_akeys, amem_eq_akeys, h]

theorem akeys_aset_congr {α β : Type} (m1 : List (Nat × α)) (m2 : List (Nat × β)) (k : Nat)
    (v1 : α) (v2 : β) (h : akeys m1 = akeys m2) :
    akeys (aset m1 k v1) = akeys (aset m2 k v2) := by
  rw [akeys_aset, akeys_aset, amem_congr m1 m2 k h, h]

theorem akeys_apop_congr {α β : Type} (m1 : List (Nat × α)) (m2 : List (Nat × β)) (k : Nat)
    (h : akeys m1 = akeys m2) : akeys (apop m1 k) = akeys (apop m2 k) := by
  rw [akeys_apop, akeys_apop, h]

theorem amem_aset_self {α : Type} (m : List (Nat × α)) (k : Nat) (v : α) :
    amem (aset m k v) k = true := by
  rw [amem_eq_akeys, akeys_aset]
  by_cases h : amem m k
  · rw [if_pos h, ← amem_eq_akeys]
    exact h
  · rw [if_neg h]
    simp [List.any_append]

theorem keys_aligned_close (s : StratState) (b : Bool) (tid : Nat) (reason : String)
    (res : ℚ × StratState × List DBEvent) (h : keys_aligned s)
    (hc : close_position b s tid reason = some res) : keys_aligned res.2.1 := by
  unfold close_position at hc
  by_cases hm : amem s.active_positions tid = false
  · rw [if_pos hm] at hc
    cases hc
    exact h
  · rw [if_neg hm] at hc
    by_cases hb : b
    · rw [if_pos hb] at hc
      cases hc
    · rw [if_neg hb] at hc
      cases hc
      exact ⟨akeys_apop_congr _ _ _ h.1, akeys_apop_congr _ _ _ h.2.1,
        akeys_apop_congr _ _ _ h.2.2.1, akeys_apop_congr _ _ _ h.2.2.2⟩

theorem keys_aligned_roll_leg (env : Env) (s : StratState) (tid : Nat) (p : Position)
    (spot : ℚ) (h : keys_aligned s) : keys_aligned (roll_leg env s tid p spot) := by
  simp only [roll_leg, keys_aligned]
  rw [akeys_amodify]
  exact ⟨h.1, h.2.1, h.2.2.1, h.2.2.2⟩

theorem keys_aligned_roll_untested (env : Env) (s : StratState) (tid : Nat) (spot : ℚ)
    (h : keys_aligned s) : keys_aligned (roll_untested_leg env s tid spot) := by
  simp only [roll_untested_leg]
  split
  · exact h
  · exact keys_aligned_roll_leg env s tid _ spot h

theorem keys_aligned_bump (s' : StratState) (tid : Nat) (n : Nat) (h : keys_aligned s')
    (hmem : amem s'.adjustment_counts tid = true) :
    keys_aligned { s' with adjustment_counts := aset s'.adjustment_counts tid n } :=
  ⟨h.1, h.2.1, (akeys_aset_mem _ _ _ hmem).trans h.2.2.1, h.2.2.2⟩

theorem roll_untested_keeps_counts (env : Env) (s : StratState) (tid : Nat) (spot : ℚ) :
    (roll_untested_leg env s tid spot).adjustment_counts = s.adjustment_counts := by
  simp only [roll_untested_leg]
  split
  · rfl
  · rfl

theorem keys_aligned_adjust (cfg : Config) (env : Env) (s : StratState) (tid : Nat)
    (spot_arg : Option ℚ) (h : keys_aligned s) :
    keys_aligned (adjust_positions cfg env s tid spot_arg).1 := by
  unfold adjust_positions
  by_cases hm : amem s.active_positions tid = false
  · rw [if_pos hm]
    exact h
  · rw [if_neg hm]
    simp only []
    have hmem : amem s.active_positions tid = true := eq_true_of_ne_false hm
    have hcnt : amem s.adjustment_counts tid = true := by
      rw [amem_congr s.adjustment_counts s.active_positions tid h.2.2.1]
      exact hmem
    split
    · exact h
    · split
      · rcases hc : close_position false s tid "GAMMA_L3" with _ | res
        · simp only [hc]
          exact h
        · simp only [hc]
          exact keys_aligned_close s false tid "GAMMA_L3" res h hc
      · split
        · exact keys_aligned_bump _ tid _ (keys_aligned_roll_leg env s tid _ _ h) hcnt
        · split
          all_goals split
          all_goals first
            | exact h
            | (refine keys_aligned_bump _ tid _ (keys_aligned_roll_untested env s tid _ h) ?_
               rw [roll_untested_keeps_counts]
               exact hcnt)

theorem keys_aligned_update_prices (env : Env) (s : StratState) (tid : Nat) (spot : ℚ)
    (h : keys_aligned s) : keys_aligned (update_position_prices env s tid spot).1 := by
  simp only [update_position_prices, keys_aligned]
  rw [akeys_amodify]
  exact ⟨h.1, h.2.1, h.2.2.1, h.2.2.2⟩

theorem keys_aligned_expiry_targets (cfg : Config) (s : StratState) (tid : Nat)
    (h : keys_aligned s) : keys_aligned (check_expiry_targets cfg s tid).1 := by
  unfold check_expiry_targets
  simp only []
  split
  · exact h
  · split
    · rcases hc : close_position false s tid "TARGET_HIT" with _ | res
      · simp only [hc]
        exact h
      · simp only [hc]
        exact keys_aligned_close s false tid "TARGET_HIT" res h hc
    · split
      · rcases hc : close_position false s tid "STOP_LOSS" with _ | res
        · simp only [hc]
          exact h
        · simp only [hc]
          exact keys_aligned_close s false tid "STOP_LOSS" res h hc
      · exact h

theorem keys_aligned_aset_all (s : StratState) (tid : Nat) (ps : List Position) (es et : ℚ)
    (ac : Nat) (tp : ℚ) (h : keys_aligned s) :
    keys_aligned { s with
      active_positions := aset s.active_positions tid ps,
      entry_spot := aset s.entry_spot tid es,
      entry_time := aset s.entry_time tid et,
      adjustment_counts := aset s.adjustment_counts tid ac,
      trade_premium := aset s.trade_premium tid tp } :=
  ⟨akeys_aset_congr _ _ _ _ _ h.1, akeys_aset_congr _ _ _ _ _ h.2.1,
   akeys_aset_congr _ _ _ _ _ h.2.2.1, akeys_aset_congr _ _ _ _ _ h.2.2.2⟩

theorem keys_aligned_check_entry (cfg : Config) (env : Env) (s : StratState)
    (h : keys_aligned s) : keys_aligned (check_entry cfg env s).2 := by
  have hmaps := check_entry_keeps_maps cfg env s
  exact ⟨hmaps.2.1.symm ▸ hmaps.1.symm ▸ h.1, hmaps.2.2.1.symm ▸ hmaps.1.symm ▸ h.2.1,
    hmaps.2.2.2.1.symm ▸ hmaps.1.symm ▸ h.2.2.1, hmaps.2.2.2.2.symm ▸ hmaps.1.symm ▸ h.2.2.2⟩

theorem keys_aligned_open (cfg : Config) (env : Env) (s : StratState) (stype : String)
    (h : keys_aligned s) : keys_aligned (open_position cfg env s stype).2.1 := by
  have hce' := keys_aligned_check_entry cfg env s h
  unfold open_position
  rcases hce : check_entry cfg env s with ⟨b, s0⟩
  rw [hce] at hce'
  simp only [] at hce'
  rcases hsp : env.get_spot_price with _ | spot
  all_goals cases b
  all_goals simp only []
  · exact hce'
  · exact hce'
  · exact hce'
  · by_cases hz : spot = 0
    · rw [if_pos hz]
      exact hce'
    · rw [if_neg hz]
      split
      all_goals split
      all_goals first
        | exact ⟨hce'.1, hce'.2.1, hce'.2.2.1, hce'.2.2.2⟩
        | exact ⟨akeys_aset_congr _ _ _ _ _ hce'.1, akeys_aset_congr _ _ _ _ _ hce'.2.1,
            akeys_aset_congr _ _ _ _ _ hce'.2.2.1, akeys_aset_congr _ _ _ _ _ hce'.2.2.2⟩

theorem open_success_inserts (cfg : Config) (env : Env) (s : StratState) (stype : String)
    (tid : Nat) (s' : StratState) (evs : List DBEvent)
    (heq : open_position cfg env s stype = (some tid, s', evs)) :
    amem s'.active_positions tid = true ∧ amem s'.entry_spot tid = true ∧
    amem s'.entry_time tid = true ∧ amem s'.adjustment_counts tid = true ∧
    amem s'.trade_premium tid = true := by
  unfold open_position at heq
  rcases hce : check_entry cfg env s with ⟨b, s0⟩
  rcases hsp : env.get_spot_price with _ | spot
  all_goals rw [hce, hsp] at heq
  all_goals cases b
  all_goals simp only [] at heq
  · simp at heq
  · simp at heq
  · simp at heq
  · by_cases hz : spot = 0
    · rw [if_pos hz] at heq
      simp at heq
    · rw [if_neg hz] at heq
      split at heq
      all_goals split at heq
      all_goals first
        | (simp only [Prod.mk.injEq, Option.some.injEq] at heq
           obtain ⟨htid, hs', hevs⟩ := heq
           subst htid
           subst hs'
           exact ⟨amem_aset_self _ _ _, amem_aset_self _ _ _, amem_aset_self _ _ _,
             amem_aset_self _ _ _, amem_aset_self _ _ _⟩)
        | simp at heq

theorem close_removes_everywhere (s : StratState) (tid : Nat) (reason : String)
    (res : ℚ × StratState × List DBEvent)
    (hmem : amem s.active_positions tid = true)
    (hc : close_position false s tid reason = some res) :
    amem res.2.1.active_positions tid = false ∧ amem res.2.1.entry_spot tid = false ∧
    amem res.2.1.entry_time tid = false ∧ amem res.2.1.adjustment_counts tid = false ∧
    amem res.2.1.trade_premium tid = false := by
  rw [close_position_live s tid reason hmem] at hc
  have hres := Option.some.inj hc
  rw [← hres]
  exact ⟨amem_apop_self _ _, amem_apop_self _ _, amem_apop_self _ _,
    amem_apop_self _ _, amem_apop_self _ _⟩

theorem reset_day_result (s s' : StratState) (h : reset_day s = some s') :
    keys_aligned s' ∧ s'.active_positions = [] ∧ s'.entry_spot = [] ∧ s'.entry_time = [] ∧
    s'.adjustment_counts = [] ∧ s'.trade_premium = [] := by
  unfold reset_day at h
  split at h
  · cases h
  · have hs := Option.some.inj h
    rw [← hs]
    exact ⟨⟨rfl, rfl, rfl, rfl⟩, rfl, rfl, rfl, rfl, rfl⟩

theorem foldl_keys_aligned (cfg : Config) (env : Env) (spot : ℚ) (l : List Nat) :
    ∀ acc : StratState × List DBEvent, keys_aligned acc.1 →
      keys_aligned (l.foldl (fun (acc : StratState × List DBEvent) trade_id =>
        let r1 := update_position_prices env acc.1 trade_id spot
        let r2 := adjust_positions cfg env r1.1 trade_id (some spot)
        let r3 := check_expiry_targets cfg r2.1 trade_id
        (r3.1, acc.2 ++ r1.2 ++ r2.2 ++ r3.2)) acc).1 := by
  induction l with
  | nil => intro acc h; exact h
  | cons t rest ih =>
      intro acc h
      simp only [List.foldl_cons]
      apply ih
      exact keys_aligned_expiry_targets cfg _ t
        (keys_aligned_adjust cfg env _ t (some spot)
          (keys_aligned_update_prices env acc.1 t spot h))

theorem keys_aligned_monitor (cfg : Config) (env : Env) (s : StratState)
    (h : keys_aligned s) : keys_aligned (monitor_positions cfg env s).1 := by
  unfold monitor_positions
  split
  · exact h
  · split
    · exact h
    · split
      · exact h
      · exact foldl_keys_aligned cfg env _ _ _ ⟨h.1, h.2.1, h.2.2.1, h.2.2.2⟩

/-- C10: the five per-trade maps (positions, entry spot, entry time,
adjustment counts, premium) always share one key set: they start empty, a
successful `open_position` inserts the new trade id into all five, an
effective `close_position` removes it from all five, `reset_day` (when it
completes) empties all five, and every operation — including the monitor
tick, the gamma defence with its rolls, and the expiry target check —
preserves the alignment. -/
theorem five_map_key_alignment (cfg : Config) (env : Env) (s : StratState)
    (h : keys_aligned s) :
    keys_aligned initial_state ∧
    (∀ stype, keys_aligned (open_position cfg env s stype).2.1) ∧
    (∀ stype tid s' evs, open_position cfg env s stype = (some tid, s', evs) →
      amem s'.active_positions tid = true ∧ amem s'.entry_spot tid = true ∧
      amem s'.entry_time tid = true ∧ amem s'.adjustment_counts tid = true ∧
      amem s'.trade_premium tid = true) ∧
    (∀ b tid reason res, close_position b s tid reason = some res → keys_aligned res.2.1) ∧
    (∀ tid reason res, amem s.active_positions tid = true →
      close_position false s tid reason = some res →
      amem res.2.1.active_positions tid = false ∧ amem res.2.1.entry_spot tid = false ∧
      amem res.2.1.entry_time tid = false ∧ amem res.2.1.adjustment_counts tid = false ∧
      amem res.2.1.trade_premium tid = false) ∧
    (∀ s', reset_day s = some s' → keys_aligned s' ∧ s'.active_positions = [] ∧
      s'.entry_spot = [] ∧ s'.entry_time = [] ∧ s'.adjustment_counts = [] ∧
      s'.trade_premium = []) ∧
    (∀ tid spot_arg, keys_aligned (adjust_positions cfg env s tid spot_arg).1) ∧
    (∀ tid spot, keys_aligned (update_position_prices env s tid spot).1) ∧
    (∀ tid, keys_aligned (check_expiry_targets cfg s tid).1) ∧
    keys_aligned (monitor_positions cfg env s).1 := by
  refine ⟨⟨rfl, rfl, rfl, rfl⟩, ?_, ?_, ?_, ?_, ?_, ?_, ?_, ?_, ?_⟩
  · intro stype
    exact keys_aligned_open cfg env s stype h
  · intro stype tid s' evs heq
    exact open_success_inserts cfg env s stype tid s' evs heq
  · intro b tid reason res hc
    exact keys_aligned_close s b tid reason res h hc
  · intro tid reason res hmem hc
    exact close_removes_everywhere s tid reason res hmem hc
  · intro s' hr
    exact reset_day_result s s' hr
  · intro tid spot_arg
    exact keys_aligned_adjust cfg env s tid spot_arg h
  · intro tid spot
    exact keys_aligned_update_prices env s tid spot h
  · intro tid
    exact keys_aligned_expiry_targets cfg s tid h
  · exact keys_aligned_monitor cfg env s h

/-- Witness for C10 at the concrete two-structure state: the empty initial
state is aligned and an `open_position` call preserves alignment. -/
theorem five_map_key_alignment_witness :
    keys_aligned initial_state ∧
    keys_aligned (open_position cfg_example env_example two_open_state "GAMMA_STRANGLE").2.1 :=
  ⟨(five_map_key_alignment cfg_example env_example two_open_state ⟨rfl, rfl, rfl, rfl⟩).1,
   (five_map_key_alignment cfg_example env_example two_open_state ⟨rfl, rfl, rfl, rfl⟩).2.1
     "GAMMA_STRANGLE"⟩
